import Mathlib

/-!
Shallow embedding of the client-side portfolio script of this repository
(`src/script.js` and the newer revision `src/unnamed/part_000`, which adds
the blog subsystem).  The embedding covers:

* the experience-post / blog "like" operations (`likePost`, `likeBlog`);
* the project filter and search handlers (`toggleFilter`, `searchHandler`);
* the accessible modal subsystem: `openProjectModal`, `closeProjectModal`,
  `openBlogModal`, `closeBlogModal`, `trapFocus`, and the document-level
  dismissal listeners (escape key, backdrop click, close button), combined
  into an event-step function `step`.

DOM elements are identified by natural numbers; the document keeps the set
of attached element ids, the active (focused) element and the body
`overflow` style.  `el.focus()` on a detached element is a no-op, and
removing the focused element moves focus to the body (id 0), following
browser semantics.  Where the revision `part_000` extends `script.js`
(blog modal, escape handler closing both surfaces) the newer revision is
embedded; the project-modal code is otherwise identical in both files.
-/

namespace Website01

/-! ## Posts and blogs (script.js lines 439-497, part_000 lines 466-612)

`likes` may be absent in stored records; the code only reads it through the
JavaScript coercion `(p.likes || 0)` and only tests `liked` for truthiness,
so `likes` is embedded as an integer (absent treated through `jsOrZero`)
and `liked` as a boolean (absent treated as `false`). -/

/-- JavaScript `x || 0` on an integer JavaScript value: `0` is falsy and maps to `0`,
every other number is truthy and kept.  On integers this is the identity. -/
def jsOrZero (n : Int) : Int := if n = 0 then 0 else n

/-- An experience post (script.js `state.posts` entries). -/
structure Post where
  id : Int
  content : String
  date : String
  likes : Int
  liked : Bool
deriving Repr, DecidableEq

/-- A blog entry (part_000 `state.blogs` entries). -/
structure Blog where
  id : Int
  title : String
  content : String
  date : String
  likes : Int
  liked : Bool
deriving Repr, DecidableEq

/-- Body of `likePost` applied to the post found by id:
`p.liked = !p.liked; p.likes = (p.likes || 0) + (p.liked ? 1 : -1)`. -/
def likePostEntry (p : Post) : Post :=
  let liked := !p.liked
  { p with liked := liked, likes := jsOrZero p.likes + (if liked then 1 else -1) }

/-- The function `likePost(id)` (script.js lines 493-497): `state.posts.find(x => x.id === id)`
returns the first matching post and it is mutated in place; if no post
matches, the function returns without touching the state.  (`savePosts` /
`renderPosts` persist and re-render and do not change the post list.) -/
def likePost (targetId : Int) : List Post → List Post
  | [] => []
  | p :: ps => if p.id = targetId then likePostEntry p :: ps else p :: likePost targetId ps

/-- Body of `likeBlog` applied to the blog found by id (part_000 lines 596-599). -/
def likeBlogEntry (b : Blog) : Blog :=
  let liked := !b.liked
  { b with liked := liked, likes := jsOrZero b.likes + (if liked then 1 else -1) }

/-- The function `likeBlog(id)` (part_000 lines 596-612) restricted to its effect on
`state.blogs`: the first blog with the given id is toggled; if none exists
the function returns early.  The trailing modal-button update only reads
the blog record and rewrites presentation markup, it does not change
`state.blogs`. -/
def likeBlog (targetId : Int) : List Blog → List Blog
  | [] => []
  | b :: bs => if b.id = targetId then likeBlogEntry b :: bs else b :: likeBlog targetId bs

/-! ## Projects, filter and search (script.js lines 294-318) -/

/-- A project record (`projects.json` entry / `demoProjects()`).  The string
fields are read through `(x || '')`, which is the identity on strings here
(absent/null collapses to the empty string); `github`/`demo` are tested for
truthiness when the modal links are rendered, so they are embedded as
`Option String` with `none` for an absent or empty value. -/
structure Project where
  id : Int
  title : String
  description : String
  fullDescription : String
  tags : List String
  image : Option String
  github : Option String
  demo : Option String
deriving Repr, DecidableEq

/-- JavaScript `s.includes(q)`: `q` occurs contiguously in `s`. -/
def jsIncludes (s q : String) : Bool := decide (q.data <:+: s.data)

/-- The slice of `state` that the filter/search handlers touch. -/
structure SearchState where
  projects : List Project
  filteredProjects : List Project
  currentFilter : String
deriving Repr, DecidableEq

/-- The handler `toggleFilter(tag, btn)` (script.js lines 294-307) restricted to its
effect on `state` (button CSS classes and re-rendering are presentation). -/
def toggleFilter (tag : String) (st : SearchState) : SearchState :=
  if st.currentFilter = tag then
    { st with currentFilter := "all", filteredProjects := st.projects }
  else
    { st with currentFilter := tag,
              filteredProjects := st.projects.filter (fun p => p.tags.contains tag) }

/-- The debounced input handler installed by `initProjectSearch`
(script.js lines 309-318), applied to the input value:
`q = value.toLowerCase().trim()`; the pool is all projects when the filter
is `'all'`, otherwise the projects whose tags include the filter; the pool
is then filtered by title / description / any tag containing `q`. -/
def searchHandler (value : String) (st : SearchState) : SearchState :=
  let q := value.toLower.trim
  let pool := if st.currentFilter = "all" then st.projects
              else st.projects.filter (fun p => p.tags.contains st.currentFilter)
  { st with filteredProjects :=
      pool.filter (fun p =>
        jsIncludes p.title.toLower q || jsIncludes p.description.toLower q ||
          p.tags.any (fun t => jsIncludes t.toLower q)) }

/-! ## Modal subsystem (part_000 lines 340-418 and 652-731)

Elements are natural-number ids; id 0 is `document.body`. -/

/-- One keydown listener installed by `trapFocus`: the closure `keyHandler`
captures the `first` and `last` entries of the focusable list computed at
install time. -/
structure TrapHandler where
  first : Nat
  last : Nat
deriving Repr, DecidableEq

/-- The DOM state of one modal container (`#project-modal` or `#blog-modal`).
`ariaHidden` is the value of the `aria-hidden` attribute (`none` = absent);
`closeCtl` is the `.modal-close` element inside the container, if the page
markup has one; `bodyFocusables` are the focusable elements currently inside
the modal body (re-created by `innerHTML` on every open). -/
structure ModalDom where
  openAttr : Bool
  ariaHidden : Option String
  display : String
  closeCtl : Option Nat
  bodyFocusables : List Nat
  trapListeners : List TrapHandler
deriving Repr, DecidableEq

/-- The ordered focusable descendants of the container, as returned by the
`querySelectorAll` in `trapFocus`.  Modelled from the spec: the page markup
(`index.html`) is not under `src/`; per the spec's concrete scenario
(§8: "[Close, Link, Button]") the close control precedes the body content
in document order. -/
def ModalDom.focusables (m : ModalDom) : List Nat := m.closeCtl.toList ++ m.bodyFocusables

/-- The openness test the code itself uses in its escape handler:
`modal.getAttribute('aria-hidden') === 'false'`. -/
def ModalDom.ariaOpen (m : ModalDom) : Bool := decide (m.ariaHidden = some "false")

/-- A blog-modal body (part_000 lines 684-707) always renders the like
button; when `isAdmin()` the edit and delete buttons are also rendered.
The rest of the injected markup is non-focusable text. -/
def blogBodyFocusableCount (admin : Bool) : Nat := 1 + (if admin then 2 else 0)

/-- A project-modal body (script.js lines 330-343) renders one focusable
link per truthy `github` / `demo` field; the rest is non-focusable. -/
def projectLinkCount (p : Project) : Nat :=
  (if p.github.isSome then 1 else 0) + (if p.demo.isSome then 1 else 0)

/-- The whole mutable state the modal subsystem touches: the two modal
containers, the document body `overflow` style, the currently focused
element, the JavaScript global `lastFocused`, the set of attached element
ids, a fresh-id allocator for the elements created by `innerHTML`,
`state.blogs`, `state.currentBlogId`, and the `isAdmin()` flag. -/
structure St where
  projectModal : ModalDom
  blogModal : ModalDom
  bodyOverflow : String
  activeElement : Nat
  lastFocused : Option Nat
  attached : List Nat
  nextId : Nat
  blogs : List Blog
  currentBlogId : Option Int
  admin : Bool
deriving Repr, DecidableEq

/-- Browser `el.focus()` semantics: focusing an element that is no longer in the document is
a silent no-op (browser semantics). -/
def focusOn (e : Nat) (s : St) : St :=
  if e ∈ s.attached then { s with activeElement := e } else s

/-- Removing elements from the document (the old modal-body content
replaced by `innerHTML`).  If the focused element is removed the browser
moves focus to `document.body` (id 0). -/
def detachAll (es : List Nat) (s : St) : St :=
  { s with attached := s.attached.filter (fun a => !(es.contains a)),
           activeElement := if s.activeElement ∈ es then 0 else s.activeElement }

/-- Attaching freshly created elements (the new modal-body content). -/
def attachAll (es : List Nat) (s : St) : St :=
  { s with attached := s.attached ++ es }

/-- The ids of the `k` elements freshly created by an `innerHTML` render. -/
def freshIds (start k : Nat) : List Nat := (List.range k).map (fun i => start + i)

/-- The function `trapFocus(container)` (script.js lines 379-391): enumerate the
focusable descendants; if there are none, return without installing
anything; otherwise add a keydown listener whose closure captures the first
and last entries.  The function also stores a `_removeTrap` remover on the
container, but no code in the repository ever calls it. -/
def trapFocus (m : ModalDom) : ModalDom :=
  match m.focusables with
  | [] => m
  | f :: rest =>
      { m with trapListeners :=
          m.trapListeners ++ [⟨f, (f :: rest).getLast (List.cons_ne_nil f rest)⟩] }

/-- A keyboard event as seen by the trap handler. -/
structure KeyEv where
  key : String
  shiftKey : Bool
deriving Repr, DecidableEq

/-- The `keyHandler` closure installed by `trapFocus`, as a function of the
captured `first`/`last`, the event and the currently focused element.
Returns (default prevented, element `focus()` was called on):
non-Tab keys return immediately; Shift+Tab on `first` prevents default and
focuses `last`; plain Tab on `last` prevents default and focuses `first`;
anything else falls through untouched. -/
def keyHandler (first last : Nat) (e : KeyEv) (active : Nat) : Bool × Option Nat :=
  if e.key ≠ "Tab" then (false, none)
  else if e.shiftKey && decide (active = first) then (true, some last)
  else if !e.shiftKey && decide (active = last) then (true, some first)
  else (false, none)

/-- The function `openProjectModal(project)` (script.js lines 324-353, identical in
part_000 lines 341-370).  The containers exist in the page, so the
missing-handle early return does not fire.  The `open` attribute is set by
a 20ms cosmetic timer; it is modelled as immediate. -/
def openProjectModal (p : Project) (s : St) : St :=
  let s1 := { s with lastFocused := some s.activeElement }
  let olds := s1.projectModal.bodyFocusables
  let news := freshIds s1.nextId (projectLinkCount p)
  let s2 := attachAll news (detachAll olds s1)
  let s3 := { s2 with nextId := s2.nextId + projectLinkCount p,
                      projectModal := { s2.projectModal with
                        bodyFocusables := news,
                        ariaHidden := some "false",
                        display := "flex",
                        openAttr := true },
                      bodyOverflow := "hidden" }
  let s4 := match s3.projectModal.closeCtl with
            | some c => focusOn c s3
            | none => s3
  { s4 with projectModal := trapFocus s4.projectModal }

/-- The function `closeProjectModal()` (script.js lines 355-363): remove the `open`
attribute, set `aria-hidden`, hide the container, unlock scrolling, and
call `lastFocused.focus()` when `lastFocused` is non-null.  Note that the
trap listeners are not touched. -/
def closeProjectModal (s : St) : St :=
  let s1 := { s with projectModal := { s.projectModal with
                       openAttr := false,
                       ariaHidden := some "true",
                       display := "none" },
                     bodyOverflow := "" }
  match s1.lastFocused with
  | some e => focusOn e s1
  | none => s1

/-- The function `openBlogModal(id)` (part_000 lines 652-713): look the blog up by id
and return early when it does not exist; otherwise record
`state.currentBlogId`, capture `lastFocused`, re-render the body, show the
container, lock scrolling, focus the close control when present, and
install the focus trap. -/
def openBlogModal (targetId : Int) (s : St) : St :=
  match s.blogs.find? (fun b => decide (b.id = targetId)) with
  | none => s
  | some _ =>
      let s1 := { s with currentBlogId := some targetId,
                         lastFocused := some s.activeElement }
      let olds := s1.blogModal.bodyFocusables
      let news := freshIds s1.nextId (blogBodyFocusableCount s1.admin)
      let s2 := attachAll news (detachAll olds s1)
      let s3 := { s2 with nextId := s2.nextId + blogBodyFocusableCount s2.admin,
                          blogModal := { s2.blogModal with
                            bodyFocusables := news,
                            ariaHidden := some "false",
                            display := "flex",
                            openAttr := true },
                          bodyOverflow := "hidden" }
      let s4 := match s3.blogModal.closeCtl with
                | some c => focusOn c s3
                | none => s3
      { s4 with blogModal := trapFocus s4.blogModal }

/-- The function `closeBlogModal()` (part_000 lines 715-724). -/
def closeBlogModal (s : St) : St :=
  let s1 := { s with currentBlogId := none,
                     blogModal := { s.blogModal with
                       openAttr := false,
                       ariaHidden := some "true",
                       display := "none" },
                     bodyOverflow := "" }
  match s1.lastFocused with
  | some e => focusOn e s1
  | none => s1

/-- The user events the document-level listeners react to. -/
inductive Ev where
  | activateProjectCard (p : Project)
  | activateBlogCard (targetId : Int)
  | escapeKey
  | backdropClickProject
  | backdropClickBlog
  | closeButtonProject
  | closeButtonBlog
deriving Repr, DecidableEq

/-- One event step of the modal subsystem.  Card activation calls the
matching open function (script.js lines 265-266, part_000 lines 549-556);
a click whose target is exactly a modal backdrop calls that modal's close
(part_000 lines 382-385 and 726-729); the escape handler (part_000 lines
386-393) closes the project modal when its `aria-hidden` is `'false'` and
then closes the blog modal when its `aria-hidden` is `'false'`; the close
buttons call the close functions directly (part_000 lines 394-399). -/
def step (e : Ev) (s : St) : St :=
  match e with
  | .activateProjectCard p => openProjectModal p s
  | .activateBlogCard targetId => openBlogModal targetId s
  | .escapeKey =>
      let s1 := if s.projectModal.ariaOpen then closeProjectModal s else s
      if s1.blogModal.ariaOpen then closeBlogModal s1 else s1
  | .backdropClickProject => closeProjectModal s
  | .backdropClickBlog => closeBlogModal s
  | .closeButtonProject => closeProjectModal s
  | .closeButtonBlog => closeBlogModal s

/-- Running a sequence of user events. -/
def run (evs : List Ev) (s : St) : St := evs.foldl (fun s e => step e s) s

/-- At most one dialog surface is open (the §3 invariant of the spec). -/
def atMostOneOpen (s : St) : Prop :=
  ¬(s.projectModal.ariaOpen = true ∧ s.blogModal.ariaOpen = true)

instance (s : St) : Decidable (atMostOneOpen s) := by
  unfold atMostOneOpen; infer_instance

/-- Both surfaces closed (per the code's own `aria-hidden` test). -/
def bothClosed (s : St) : Prop :=
  s.projectModal.ariaOpen = false ∧ s.blogModal.ariaOpen = false

instance (s : St) : Decidable (bothClosed s) := by
  unfold bothClosed; infer_instance

/-- Whether an event is a card activation (an open request). -/
def Ev.isCard : Ev → Bool
  | .activateProjectCard _ => true
  | .activateBlogCard _ => true
  | _ => false

/-- Traces in which a card is only activated while both surfaces are
closed (in the browser an open modal overlays the page, so the cards
behind it cannot be activated). -/
inductive Admissible : St → List Ev → Prop where
  | nil (s : St) : Admissible s []
  | cons (s : St) (e : Ev) (evs : List Ev) :
      (e.isCard = true → bothClosed s) →
      Admissible (step e s) evs →
      Admissible s (e :: evs)

/-! ## Concrete fixtures

A concrete page state for witnesses and counterexamples: both modal
containers exist with their `.modal-close` buttons (elements 1 and 2),
both closed, focus on `document.body` (element 0), two seed blogs.
The seed ids are `Date.now()`-derived at runtime; the fixture uses 1, 2. -/

/-- The single entry of `demoProjects()` (script.js lines 230-243);
the `image` data URI is abbreviated, it is never consulted. -/
def demoProject : Project :=
  { id := 101, title := "Demo Shop", description := "Demo e-commerce site.",
    fullDescription := "Demo full description with features.",
    tags := ["React", "Node.js"], image := some "data:image/svg+xml",
    github := some "#", demo := some "#" }

/-- First seed blog of `seedBlogs()` (part_000 lines 471-480), content
abbreviated; the modal subsystem only consults the id. -/
def seedBlog1 : Blog :=
  { id := 1, title := "Why I Love CSS Grid", content := "Just learned CSS Grid",
    date := "2026-10-08", likes := 5, liked := false }

/-- Second seed blog of `seedBlogs()` (part_000 lines 481-490). -/
def seedBlog2 : Blog :=
  { id := 2, title := "The Art of Debugging", content := "Step away to debug",
    date := "2026-10-09", likes := 12, liked := false }

/-- The page state after load: both surfaces closed, focus on the body. -/
def initSt : St :=
  { projectModal := { openAttr := false, ariaHidden := some "true", display := "none",
                      closeCtl := some 1, bodyFocusables := [], trapListeners := [] },
    blogModal := { openAttr := false, ariaHidden := some "true", display := "none",
                   closeCtl := some 2, bodyFocusables := [], trapListeners := [] },
    bodyOverflow := "", activeElement := 0, lastFocused := none,
    attached := [0, 1, 2], nextId := 10,
    blogs := [seedBlog1, seedBlog2], currentBlogId := none, admin := false }

/-- A page whose project-modal container has no `.modal-close` control. -/
def noCloseSt : St :=
  { initSt with projectModal := { initSt.projectModal with closeCtl := none } }

/-- The reachable state in which both surfaces are open: a project card
and then a blog card activated from the loaded page. -/
def bothOpenSt : St := run [.activateProjectCard demoProject, .activateBlogCard 1] initSt

example :
    (run [.activateProjectCard demoProject, .activateBlogCard 1] initSt).projectModal.ariaOpen
      = true := by decide

example :
    (run [.activateProjectCard demoProject, .activateBlogCard 1] initSt).blogModal.ariaOpen
      = true := by decide

example :
    ((closeProjectModal (openProjectModal demoProject initSt)).projectModal.trapListeners).length
      = 1 := by decide

example :
    (openProjectModal demoProject noCloseSt).activeElement = 0 := by decide

example :
    (openProjectModal demoProject noCloseSt).projectModal.focusables = [10, 11] := by decide

/-! ## Component lemmas -/

theorem jsOrZero_eq (n : Int) : jsOrZero n = n := by
  unfold jsOrZero; split <;> simp_all

@[simp] theorem focusOn_projectModal (e : Nat) (s : St) :
    (focusOn e s).projectModal = s.projectModal := by
  unfold focusOn; split <;> rfl

@[simp] theorem focusOn_blogModal (e : Nat) (s : St) :
    (focusOn e s).blogModal = s.blogModal := by
  unfold focusOn; split <;> rfl

@[simp] theorem focusOn_lastFocused (e : Nat) (s : St) :
    (focusOn e s).lastFocused = s.lastFocused := by
  unfold focusOn; split <;> rfl

@[simp] theorem focusOn_attached (e : Nat) (s : St) :
    (focusOn e s).attached = s.attached := by
  unfold focusOn; split <;> rfl

@[simp] theorem focusOn_bodyOverflow (e : Nat) (s : St) :
    (focusOn e s).bodyOverflow = s.bodyOverflow := by
  unfold focusOn; split <;> rfl

theorem focusOn_activeElement (e : Nat) (s : St) :
    (focusOn e s).activeElement = if e ∈ s.attached then e else s.activeElement := by
  unfold focusOn; split <;> simp_all

@[simp] theorem trapFocus_ariaHidden (m : ModalDom) :
    (trapFocus m).ariaHidden = m.ariaHidden := by
  unfold trapFocus; split <;> rfl

@[simp] theorem trapFocus_display (m : ModalDom) :
    (trapFocus m).display = m.display := by
  unfold trapFocus; split <;> rfl

@[simp] theorem trapFocus_openAttr (m : ModalDom) :
    (trapFocus m).openAttr = m.openAttr := by
  unfold trapFocus; split <;> rfl

@[simp] theorem trapFocus_closeCtl (m : ModalDom) :
    (trapFocus m).closeCtl = m.closeCtl := by
  unfold trapFocus; split <;> rfl

@[simp] theorem openProjectModal_blogModal (p : Project) (s : St) :
    (openProjectModal p s).blogModal = s.blogModal := by
  unfold openProjectModal attachAll detachAll
  dsimp only
  split <;> simp

@[simp] theorem openProjectModal_lastFocused (p : Project) (s : St) :
    (openProjectModal p s).lastFocused = some s.activeElement := by
  unfold openProjectModal attachAll detachAll
  dsimp only
  split <;> simp

@[simp] theorem openProjectModal_ariaHidden (p : Project) (s : St) :
    (openProjectModal p s).projectModal.ariaHidden = some "false" := by
  unfold openProjectModal attachAll detachAll
  dsimp only
  split <;> simp

@[simp] theorem closeProjectModal_blogModal (s : St) :
    (closeProjectModal s).blogModal = s.blogModal := by
  unfold closeProjectModal; dsimp only; split <;> simp

@[simp] theorem closeProjectModal_ariaHidden (s : St) :
    (closeProjectModal s).projectModal.ariaHidden = some "true" := by
  unfold closeProjectModal; dsimp only; split <;> simp

@[simp] theorem closeProjectModal_trapListeners (s : St) :
    (closeProjectModal s).projectModal.trapListeners = s.projectModal.trapListeners := by
  unfold closeProjectModal; dsimp only; split <;> simp

@[simp] theorem closeBlogModal_projectModal (s : St) :
    (closeBlogModal s).projectModal = s.projectModal := by
  unfold closeBlogModal; dsimp only; split <;> simp

@[simp] theorem closeBlogModal_ariaHidden (s : St) :
    (closeBlogModal s).blogModal.ariaHidden = some "true" := by
  unfold closeBlogModal; dsimp only; split <;> simp

@[simp] theorem closeBlogModal_trapListeners (s : St) :
    (closeBlogModal s).blogModal.trapListeners = s.blogModal.trapListeners := by
  unfold closeBlogModal; dsimp only; split <;> simp

theorem openBlogModal_projectModal (targetId : Int) (s : St) :
    (openBlogModal targetId s).projectModal = s.projectModal := by
  unfold openBlogModal attachAll detachAll
  split
  · rfl
  · dsimp only
    split <;> simp

theorem likePostEntry_id (p : Post) : (likePostEntry p).id = p.id := rfl

theorem likePostEntry_involutive (p : Post) : likePostEntry (likePostEntry p) = p := by
  cases p with
  | mk id content date likes liked =>
      cases liked <;> simp [likePostEntry, jsOrZero_eq]

theorem likePost_round_trip (targetId : Int) (ps : List Post) :
    likePost targetId (likePost targetId ps) = ps := by
  induction ps with
  | nil => rfl
  | cons p ps ih =>
      by_cases h : p.id = targetId
      · simp [likePost, h, likePostEntry_id, likePostEntry_involutive]
      · simp [likePost, h, ih]

theorem likePost_not_found (targetId : Int) (ps : List Post)
    (h : ∀ p ∈ ps, p.id ≠ targetId) : likePost targetId ps = ps := by
  induction ps with
  | nil => rfl
  | cons p ps ih =>
      have hp : p.id ≠ targetId := h p (List.mem_cons_self p ps)
      simp [likePost, hp]
      exact ih (fun q hq => h q (List.mem_cons_of_mem p hq))

theorem likeBlogEntry_id (b : Blog) : (likeBlogEntry b).id = b.id := rfl

theorem likeBlogEntry_involutive (b : Blog) : likeBlogEntry (likeBlogEntry b) = b := by
  cases b with
  | mk id title content date likes liked =>
      cases liked <;> simp [likeBlogEntry, jsOrZero_eq]

theorem likeBlog_round_trip (targetId : Int) (bs : List Blog) :
    likeBlog targetId (likeBlog targetId bs) = bs := by
  induction bs with
  | nil => rfl
  | cons b bs ih =>
      by_cases h : b.id = targetId
      · simp [likeBlog, h, likeBlogEntry_id, likeBlogEntry_involutive]
      · simp [likeBlog, h, ih]

theorem likeBlog_not_found (targetId : Int) (bs : List Blog)
    (h : ∀ b ∈ bs, b.id ≠ targetId) : likeBlog targetId bs = bs := by
  induction bs with
  | nil => rfl
  | cons b bs ih =>
      have hb : b.id ≠ targetId := h b (List.mem_cons_self b bs)
      simp [likeBlog, hb]
      exact ih (fun q hq => h q (List.mem_cons_of_mem b hq))

theorem openBlogModal_of_found (targetId : Int) (s : St)
    (h : (s.blogs.find? (fun b => decide (b.id = targetId))).isSome) :
    (openBlogModal targetId s).blogModal.ariaHidden = some "false"
    ∧ (openBlogModal targetId s).lastFocused = some s.activeElement := by
  obtain ⟨b, hb⟩ := Option.isSome_iff_exists.mp h
  unfold openBlogModal attachAll detachAll
  rw [hb]
  dsimp only
  constructor <;> (split <;> simp)

/-! ## Claim theorems -/

/-- C9: for every post/blog entry, liking twice in succession restores both
the likes count and the liked flag (indeed the whole list) to their values
before the first invocation, and liking an id not present in the state
leaves the state unchanged — for `likePost` (script.js) and `likeBlog`
(part_000) alike. -/
theorem like_round_trip_and_missing_noop (targetId : Int)
    (posts : List Post) (blogs : List Blog) :
    likePost targetId (likePost targetId posts) = posts
    ∧ ((∀ p ∈ posts, p.id ≠ targetId) → likePost targetId posts = posts)
    ∧ likeBlog targetId (likeBlog targetId blogs) = blogs
    ∧ ((∀ b ∈ blogs, b.id ≠ targetId) → likeBlog targetId blogs = blogs) :=
  ⟨likePost_round_trip targetId posts,
   likePost_not_found targetId posts,
   likeBlog_round_trip targetId blogs,
   likeBlog_not_found targetId blogs⟩

/-- Witness for C9 at a concrete state: the seed post list with id 1
and the seed blogs, probed with the absent id 3. -/
theorem like_round_trip_and_missing_noop_witness :
    likePost 3 (likePost 3 [⟨1, "Just learned CSS Grid", "d", 5, false⟩])
        = [⟨1, "Just learned CSS Grid", "d", 5, false⟩]
    ∧ likeBlog 3 [seedBlog1, seedBlog2] = [seedBlog1, seedBlog2] :=
  ⟨(like_round_trip_and_missing_noop 3 [⟨1, "Just learned CSS Grid", "d", 5, false⟩]
      [seedBlog1, seedBlog2]).1,
   (like_round_trip_and_missing_noop 3 [⟨1, "Just learned CSS Grid", "d", 5, false⟩]
      [seedBlog1, seedBlog2]).2.2.2 (by decide)⟩

/-- C10: after the search input handler runs, the filtered list holds
exactly the projects of the current filter pool (all projects when the
filter is `'all'`, otherwise those whose tags include the filter) whose
title, description, or some tag contains the lowercased trimmed query. -/
theorem search_filtered_characterization (value : String) (st : SearchState)
    (p : Project) :
    p ∈ (searchHandler value st).filteredProjects ↔
      p ∈ st.projects
      ∧ (st.currentFilter = "all" ∨ st.currentFilter ∈ p.tags)
      ∧ (jsIncludes p.title.toLower (value.toLower.trim) = true
         ∨ jsIncludes p.description.toLower (value.toLower.trim) = true
         ∨ ∃ t ∈ p.tags, jsIncludes t.toLower (value.toLower.trim) = true) := by
  unfold searchHandler
  dsimp only
  by_cases hf : st.currentFilter = "all" <;>
    simp [hf, List.mem_filter, and_assoc] <;>
    intro _ <;> tauto

theorem run_cons (e : Ev) (evs : List Ev) (s : St) :
    run (e :: evs) s = run evs (step e s) := rfl

theorem ariaOpen_false_of_true_attr (m : ModalDom) (h : m.ariaHidden = some "true") :
    m.ariaOpen = false := by
  simp [ModalDom.ariaOpen, h]

theorem escapeKey_closes_project (s : St) :
    (step .escapeKey s).projectModal.ariaOpen = false := by
  have hclose : (closeProjectModal s).projectModal.ariaOpen = false :=
    ariaOpen_false_of_true_attr _ (closeProjectModal_ariaHidden s)
  unfold step
  dsimp only
  by_cases hp : s.projectModal.ariaOpen = true
  · by_cases hb : s.blogModal.ariaOpen = true <;>
      simp [hp, hb, hclose]
  · have hp2 : s.projectModal.ariaOpen = false := by
      cases h : s.projectModal.ariaOpen
      · rfl
      · exact absurd h hp
    by_cases hb : s.blogModal.ariaOpen = true <;>
      simp [hp, hb, hp2]

theorem step_preserves_atMostOneOpen (s : St) (e : Ev)
    (hc : e.isCard = true → bothClosed s) : atMostOneOpen (step e s) := by
  cases e with
  | activateProjectCard p =>
      have hb := (hc rfl).2
      intro hcontr
      have : (openProjectModal p s).blogModal.ariaOpen = true := hcontr.2
      rw [openProjectModal_blogModal] at this
      rw [hb] at this
      exact Bool.false_ne_true this
  | activateBlogCard targetId =>
      have hp := (hc rfl).1
      intro hcontr
      have : (openBlogModal targetId s).projectModal.ariaOpen = true := hcontr.1
      rw [openBlogModal_projectModal] at this
      rw [hp] at this
      exact Bool.false_ne_true this
  | escapeKey =>
      intro hcontr
      have := hcontr.1
      rw [escapeKey_closes_project] at this
      exact Bool.false_ne_true this
  | backdropClickProject =>
      intro hcontr
      have := hcontr.1
      have h2 := ariaOpen_false_of_true_attr _ (closeProjectModal_ariaHidden s)
      rw [show step .backdropClickProject s = closeProjectModal s from rfl] at this
      rw [h2] at this
      exact Bool.false_ne_true this
  | backdropClickBlog =>
      intro hcontr
      have := hcontr.2
      have h2 := ariaOpen_false_of_true_attr _ (closeBlogModal_ariaHidden s)
      rw [show step .backdropClickBlog s = closeBlogModal s from rfl] at this
      rw [h2] at this
      exact Bool.false_ne_true this
  | closeButtonProject =>
      intro hcontr
      have := hcontr.1
      have h2 := ariaOpen_false_of_true_attr _ (closeProjectModal_ariaHidden s)
      rw [show step .closeButtonProject s = closeProjectModal s from rfl] at this
      rw [h2] at this
      exact Bool.false_ne_true this
  | closeButtonBlog =>
      intro hcontr
      have := hcontr.2
      have h2 := ariaOpen_false_of_true_attr _ (closeBlogModal_ariaHidden s)
      rw [show step .closeButtonBlog s = closeBlogModal s from rfl] at this
      rw [h2] at this
      exact Bool.false_ne_true this

/-- C1 counterexample: activating a blog card while the project modal is
open leaves BOTH surfaces open — from the freshly loaded page, activate a
project card and then a blog card; both containers end with
`aria-hidden='false'` and `display:flex`.  This refutes the claim that at
most one dialog surface is open in every reachable state. -/
theorem both_surfaces_open_counterexample :
    (run [.activateProjectCard demoProject, .activateBlogCard 1] initSt).projectModal.ariaOpen = true
    ∧ (run [.activateProjectCard demoProject, .activateBlogCard 1] initSt).blogModal.ariaOpen = true
    ∧ (run [.activateProjectCard demoProject, .activateBlogCard 1] initSt).projectModal.display = "flex"
    ∧ (run [.activateProjectCard demoProject, .activateBlogCard 1] initSt).blogModal.display = "flex" := by
  decide

/-- C1 (amended): under event sequences in which a card is only activated
while both surfaces are closed (which is what the browser's overlay
enforces in practice), every reachable state has at most one dialog
surface open. -/
theorem at_most_one_open_invariant (s : St) (evs : List Ev)
    (h0 : atMostOneOpen s) (h : Admissible s evs) :
    atMostOneOpen (run evs s) := by
  induction h with
  | nil s => exact h0
  | cons s e evs hc ha ih =>
      rw [run_cons]
      exact ih (step_preserves_atMostOneOpen s e hc)

/-- Witness for C1 (amended): open the project modal, close it with its
close button, then open the blog modal — an admissible trace from the
loaded page; at most one surface is open at its end. -/
theorem at_most_one_open_invariant_witness :
    atMostOneOpen
      (run [.activateProjectCard demoProject, .closeButtonProject, .activateBlogCard 1] initSt) :=
  at_most_one_open_invariant initSt _ (by decide)
    (Admissible.cons _ _ _ (fun _ => by decide)
      (Admissible.cons _ _ _ (fun hx => by simp [Ev.isCard] at hx)
        (Admissible.cons _ _ _ (fun _ => by decide)
          (Admissible.nil _))))

/-- C2: opening a surface and then closing it restores focus to exactly
the element that was focused immediately before the open call when that
element is still attached to the document; when it is not (the stored
`lastFocused` element was removed), the close call leaves focus untouched
(the `lastFocused.focus()` call silently no-ops, no error).  For the blog
surface the open call requires the blog id to exist (otherwise
`openBlogModal` returns before touching anything). -/
theorem open_close_restores_focus (p : Project) (targetId : Int) (s : St) :
    ((closeProjectModal (openProjectModal p s)).activeElement =
      if s.activeElement ∈ (openProjectModal p s).attached then s.activeElement
      else (openProjectModal p s).activeElement)
    ∧ ((s.blogs.find? (fun b => decide (b.id = targetId))).isSome →
        (closeBlogModal (openBlogModal targetId s)).activeElement =
          if s.activeElement ∈ (openBlogModal targetId s).attached then s.activeElement
          else (openBlogModal targetId s).activeElement) := by
  constructor
  · unfold closeProjectModal
    dsimp only
    rw [openProjectModal_lastFocused]
    rw [focusOn_activeElement]
  · intro h
    have hlf := (openBlogModal_of_found targetId s h).2
    unfold closeBlogModal
    dsimp only
    rw [hlf]
    rw [focusOn_activeElement]

/-- Witness for C2: on the loaded page, open then close the blog modal
with seed blog 1; focus returns to the body (element 0), which was focused
before the open call. -/
theorem open_close_restores_focus_witness :
    (closeBlogModal (openBlogModal 1 initSt)).activeElement =
      if initSt.activeElement ∈ (openBlogModal 1 initSt).attached then initSt.activeElement
      else (openBlogModal 1 initSt).activeElement :=
  (open_close_restores_focus demoProject 1 initSt).2 (by decide)

/-- C3: when the container has at least one focusable descendant,
`trapFocus` installs exactly one handler capturing the first and last of
them, and that handler: on Shift+Tab with focus on the first element,
prevents default and focuses the last; on plain Tab with focus on the
last element, prevents default and focuses the first; on every other key
event it neither prevents default nor calls `focus()`. -/
theorem focus_trap_tab_behavior (m : ModalDom) (f l : Nat) (rest : List Nat)
    (hm : m.focusables = f :: rest)
    (hl : l = (f :: rest).getLast (List.cons_ne_nil f rest)) :
    (trapFocus m).trapListeners = m.trapListeners ++ [⟨f, l⟩]
    ∧ keyHandler f l ⟨"Tab", true⟩ f = (true, some l)
    ∧ keyHandler f l ⟨"Tab", false⟩ l = (true, some f)
    ∧ ∀ (e : KeyEv) (active : Nat),
        ¬(e.shiftKey = true ∧ active = f) →
        ¬(e.shiftKey = false ∧ active = l) →
        keyHandler f l e active = (false, none) := by
  refine ⟨?_, ?_, ?_, ?_⟩
  · simp [trapFocus, hm, hl]
  · simp [keyHandler]
  · simp [keyHandler]
  · intro e active h1 h2
    unfold keyHandler
    by_cases hk : e.key = "Tab"
    · cases hs : e.shiftKey
      · have hal : active ≠ l := fun hc => h2 ⟨hs, hc⟩
        simp [hk, hs, hal]
      · have haf : active ≠ f := fun hc => h1 ⟨hs, hc⟩
        simp [hk, hs, haf]
    · simp [hk]

/-- Witness for C3: the opened project modal on the loaded page has
focusables [1, 10, 11] (close button, GitHub link, demo link); the
installed handler wraps Shift+Tab from 1 to 11 and Tab from 11 to 1 and
passes a middle Tab through. -/
theorem focus_trap_tab_behavior_witness :
    (trapFocus { (openProjectModal demoProject initSt).projectModal with trapListeners := [] }).trapListeners
        = [⟨1, 11⟩]
    ∧ keyHandler 1 11 ⟨"Tab", true⟩ 1 = (true, some 11)
    ∧ keyHandler 1 11 ⟨"Tab", false⟩ 11 = (true, some 1)
    ∧ keyHandler 1 11 ⟨"Tab", false⟩ 10 = (false, none) := by
  have h := focus_trap_tab_behavior
    { (openProjectModal demoProject initSt).projectModal with trapListeners := [] }
    1 11 [10, 11] (by decide) (by decide)
  exact ⟨h.1, h.2.1, h.2.2.1, h.2.2.2 ⟨"Tab", false⟩ 10 (by decide) (by decide)⟩

/-- C4 (code bug): the close operations never remove the focus-trap
keydown listener that open installed — `trapFocus` stores a remover in
`container._removeTrap`, but no line of the repository ever calls it.
Close leaves the listener list of every state untouched, and concretely
one listener remains after an open/close cycle on the loaded page and two
remain after a second cycle (one leaked per cycle). -/
theorem close_leaves_trap_listener_installed :
    (∀ s : St, (closeProjectModal s).projectModal.trapListeners = s.projectModal.trapListeners
      ∧ (closeBlogModal s).blogModal.trapListeners = s.blogModal.trapListeners)
    ∧ ((closeProjectModal (openProjectModal demoProject initSt)).projectModal.trapListeners).length
        = 1
    ∧ ((closeProjectModal (openProjectModal demoProject (closeProjectModal
          (openProjectModal demoProject initSt)))).projectModal.trapListeners).length = 2 :=
  ⟨fun s => ⟨closeProjectModal_trapListeners s, closeBlogModal_trapListeners s⟩,
   by decide, by decide⟩

/-- C5 counterexample: opening the project modal while it is already open
DOES install a second focus-trap keydown listener: one listener after the
first open, two after the second (the stale one still captures the
detached link 11, the new one captures 13). -/
theorem second_open_installs_second_listener :
    ((openProjectModal demoProject initSt).projectModal.trapListeners).length = 1
    ∧ ((openProjectModal demoProject
          (openProjectModal demoProject initSt)).projectModal.trapListeners).length = 2
    ∧ (openProjectModal demoProject
          (openProjectModal demoProject initSt)).projectModal.trapListeners
        = [⟨1, 11⟩, ⟨1, 13⟩] := by
  decide

/-- C5 (amended): every open call on a container that has a close control
(hence a focusable descendant) appends one more focus-trap listener, so
opening a surface that is already open leaves two listeners installed
rather than one. -/
theorem open_appends_trap_listener (p : Project) (s : St)
    (h : s.projectModal.closeCtl.isSome = true) :
    ((openProjectModal p s).projectModal.trapListeners).length
      = s.projectModal.trapListeners.length + 1 := by
  obtain ⟨c, hc⟩ := Option.isSome_iff_exists.mp h
  unfold openProjectModal attachAll detachAll
  dsimp only
  rw [hc]
  simp [trapFocus, ModalDom.focusables]

/-- Witness for C5 (amended): the first open on the loaded page takes the
listener count from 0 to 1. -/
theorem open_appends_trap_listener_witness :
    ((openProjectModal demoProject initSt).projectModal.trapListeners).length
      = (initSt.projectModal.trapListeners).length + 1 :=
  open_appends_trap_listener demoProject initSt (by decide)

/-- C6 counterexample: in a reachable state with both surfaces open,
escape-key dismissal does not produce the post-state of calling
`closeProjectModal` directly — the escape handler also closes the blog
modal (display `none`), while the direct close leaves it displayed
(`flex`). -/
theorem escape_dismissal_counterexample :
    bothOpenSt.projectModal.ariaOpen = true
    ∧ bothOpenSt.blogModal.ariaOpen = true
    ∧ (step .escapeKey bothOpenSt).blogModal.display = "none"
    ∧ (closeProjectModal bothOpenSt).blogModal.display = "flex"
    ∧ step .escapeKey bothOpenSt ≠ closeProjectModal bothOpenSt := by
  decide

/-- C6 (amended): from any state in which the dismissed surface is the
only open surface, escape-key dismissal, backdrop-click dismissal and
close-button activation each produce exactly the state of calling that
surface's close directly (hence identical scroll lock, aria marking,
visibility and focus).  (When both surfaces are open, the escape handler
closes both, so its post-state differs from a single direct close.) -/
theorem dismissal_converges_on_close (s : St) :
    (s.projectModal.ariaOpen = true → s.blogModal.ariaOpen = false →
      step .escapeKey s = closeProjectModal s
      ∧ step .backdropClickProject s = closeProjectModal s
      ∧ step .closeButtonProject s = closeProjectModal s)
    ∧ (s.blogModal.ariaOpen = true → s.projectModal.ariaOpen = false →
      step .escapeKey s = closeBlogModal s
      ∧ step .backdropClickBlog s = closeBlogModal s
      ∧ step .closeButtonBlog s = closeBlogModal s) := by
  constructor
  · intro hp hb
    refine ⟨?_, rfl, rfl⟩
    unfold step
    dsimp only
    simp [hp, hb]
  · intro hb hp
    refine ⟨?_, rfl, rfl⟩
    unfold step
    dsimp only
    simp [hp, hb]

/-- Witness for C6 (amended): with only the project modal open, pressing
escape yields exactly the state of calling `closeProjectModal`. -/
theorem dismissal_converges_on_close_witness :
    step .escapeKey (openProjectModal demoProject initSt)
      = closeProjectModal (openProjectModal demoProject initSt) :=
  ((dismissal_converges_on_close (openProjectModal demoProject initSt)).1
    (by decide) (by decide)).1

theorem closeProjectModal_idem (s : St) :
    closeProjectModal (closeProjectModal s) = closeProjectModal s := by
  cases hl : s.lastFocused with
  | none => simp [closeProjectModal, hl]
  | some e =>
      by_cases he : e ∈ s.attached <;>
        simp [closeProjectModal, focusOn, hl, he]

theorem closeBlogModal_idem (s : St) :
    closeBlogModal (closeBlogModal s) = closeBlogModal s := by
  cases hl : s.lastFocused with
  | none => simp [closeBlogModal, hl]
  | some e =>
      by_cases he : e ∈ s.attached <;>
        simp [closeBlogModal, focusOn, hl, he]

/-- C7: both close operations are idempotent — closing twice in a row
(in particular closing an already-closed surface) yields exactly the same
state (visibility, aria marking, scroll lock, focus) as closing once, and
the operations are total (no error path). -/
theorem close_idempotent (s : St) :
    closeProjectModal (closeProjectModal s) = closeProjectModal s
    ∧ closeBlogModal (closeBlogModal s) = closeBlogModal s :=
  ⟨closeProjectModal_idem s, closeBlogModal_idem s⟩

/-- C8 counterexample: on a page whose project modal has no `.modal-close`
control, open renders two focusable links (ids 10, 11) yet leaves focus on
the body (element 0): focus is NOT moved to the first focusable
descendant, refuting the claimed fallback. -/
theorem open_without_close_control_counterexample :
    noCloseSt.projectModal.closeCtl = none
    ∧ (openProjectModal demoProject noCloseSt).projectModal.focusables = [10, 11]
    ∧ (openProjectModal demoProject noCloseSt).activeElement = 0
    ∧ (openProjectModal demoProject noCloseSt).activeElement
        ∉ (openProjectModal demoProject noCloseSt).projectModal.focusables := by
  decide

/-- C8 (amended): after showing the dialog, open moves focus to the
designated close control when the container has one (and it is attached
and outside the re-rendered body); when there is no close control, open
does not move focus at all (in particular not to the first focusable
descendant).  The blog clauses additionally require the opened blog id to
exist. -/
theorem open_focus_goes_to_close_control (p : Project) (targetId : Int) (s : St) :
    (∀ c : Nat, s.projectModal.closeCtl = some c → c ∈ s.attached →
        c ∉ s.projectModal.bodyFocusables →
        (openProjectModal p s).activeElement = c)
    ∧ (s.projectModal.closeCtl = none →
        s.activeElement ∉ s.projectModal.bodyFocusables →
        (openProjectModal p s).activeElement = s.activeElement)
    ∧ (∀ c : Nat, s.blogModal.closeCtl = some c → c ∈ s.attached →
        c ∉ s.blogModal.bodyFocusables →
        (s.blogs.find? (fun b => decide (b.id = targetId))).isSome →
        (openBlogModal targetId s).activeElement = c)
    ∧ (s.blogModal.closeCtl = none →
        s.activeElement ∉ s.blogModal.bodyFocusables →
        (s.blogs.find? (fun b => decide (b.id = targetId))).isSome →
        (openBlogModal targetId s).activeElement = s.activeElement) := by
  refine ⟨?_, ?_, ?_, ?_⟩
  · intro c hc hatt hnb
    unfold openProjectModal attachAll detachAll
    dsimp only
    rw [hc]
    dsimp only
    rw [focusOn_activeElement]
    simp [List.mem_filter, List.contains, hatt, hnb]
  · intro hc hnb
    unfold openProjectModal attachAll detachAll
    dsimp only
    rw [hc]
    simp [hnb]
  · intro c hc hatt hnb hfind
    obtain ⟨b, hb⟩ := Option.isSome_iff_exists.mp hfind
    unfold openBlogModal attachAll detachAll
    rw [hb]
    dsimp only
    rw [hc]
    dsimp only
    rw [focusOn_activeElement]
    simp [List.mem_filter, List.contains, hatt, hnb]
  · intro hc hnb hfind
    obtain ⟨b, hb⟩ := Option.isSome_iff_exists.mp hfind
    unfold openBlogModal attachAll detachAll
    rw [hb]
    dsimp only
    rw [hc]
    simp [hnb]

/-- Witness for C8 (amended): on the loaded page, opening the project
modal focuses its close button (element 1) and opening blog 1 focuses the
blog modal's close button (element 2). -/
theorem open_focus_goes_to_close_control_witness :
    (openProjectModal demoProject initSt).activeElement = 1
    ∧ (openBlogModal 1 initSt).activeElement = 2 :=
  ⟨(open_focus_goes_to_close_control demoProject 1 initSt).1 1 (by decide)
     (by decide) (by decide),
   (open_focus_goes_to_close_control demoProject 1 initSt).2.2.1 2 (by decide)
     (by decide) (by decide) (by decide)⟩

end Website01
